import Mathlib

/-!
# Shallow embedding of the `react-native-payments` core

This development embeds the `PaymentRequest` state machine
(`src/js/PaymentRequest.ts`), the `PaymentRequestUpdateEvent` update
negotiation protocol (`src/js/PaymentRequestUpdateEvent.ts`) and the
`NativePayments` adapter wrappers (`src/js/NativePayments.ts`) as
executable Lean definitions, and settles the frozen claims about them.

Modelling conventions:

* The platform (`Platform.OS`) is a parameter of every platform-sensitive
  operation.
* JavaScript promises that the core merely awaits are modelled by passing
  the eventual outcome of the underlying native callback explicitly
  (`Option String`: `some err` for a failing callback, `none` for
  success), mirroring how `NativePayments` wraps each native call.
* The single accept promise created by `show()` is stored in the request
  as an `Option PromiseStatus`; the resolver/rejecter pair installed by
  `show()` is the boolean field `hasResolverPair`, and resolver/rejecter
  invocations settle the stored promise only when it is pending, mirroring
  the settle-once semantics of JavaScript promises.
* Event-emitter subscriptions are booleans (`true` while registered).
* `helpers.ts`, `constants.ts`, `errors.ts` and `PaymentResponse.ts` are
  not part of the provided sources; the few definitions needed from them
  are modelled from the specification and marked as such.
-/

/-- The two mobile platforms distinguished by `Platform.OS` in the source. -/
inductive Platform where
  | ios
  | android
deriving DecidableEq, Repr

/-- The lifecycle states of a `PaymentRequest` (`_state` field). -/
inductive RState where
  | created
  | interactive
  | closed
deriving DecidableEq, Repr

/-- The errors the embedded code can throw.  The source throws plain
`Error` objects whose message carries the error name (`'InvalidStateError'`,
`'TypeError'`, `'AbortError'`, `'Not implemented'`), `ConstructorError` /
`DOMException` from the validation helpers, JSON parse errors, and native
errors forwarded from the adapter callbacks; `runtimeTypeError` is the
native `TypeError` the runtime raises when a property is read off `null`
or `undefined` (as `isPromise` does via `value.then`). -/
inductive PRError where
  | invalidStateError
  | typeError
  | abortError
  | constructorError
  | domException
  | notImplemented
  | jsonParseError
  | runtimeTypeError
  | nativeError (msg : String)
deriving DecidableEq, Repr

/-- `PaymentCurrencyAmount` from `types.ts`. -/
structure PaymentCurrencyAmount where
  currency : String
  value : String
deriving DecidableEq, Repr

/-- `PaymentItem` from `types.ts`. -/
structure PaymentItem where
  label : String
  amount : PaymentCurrencyAmount
  pending : Bool := false
deriving DecidableEq, Repr

/-- `PaymentShippingOption` from `types.ts`. -/
structure PaymentShippingOption where
  id : String
  label : String
  amount : PaymentCurrencyAmount
  selected : Bool := false
deriving DecidableEq, Repr

/-- `PaymentDetailsInit` from `types.ts` (the `modifiers` member is unused
by the embedded code and omitted). -/
structure PaymentDetailsInit where
  id : Option String := none
  total : PaymentItem
  displayItems : List PaymentItem := []
  shippingOptions : List PaymentShippingOption := []
deriving DecidableEq, Repr

/-- `PaymentMethodData` from `types.ts` (the platform-specific `data`
member is passed through to the adapter untouched and omitted here). -/
structure PaymentMethodData where
  supportedMethods : List String
deriving DecidableEq, Repr

/-- `PaymentShippingType` from `types.ts`. -/
inductive PaymentShippingType where
  | shipping
  | delivery
  | pickup
deriving DecidableEq, Repr

/-- `PaymentOptions` from `types.ts`. -/
structure PaymentOptions where
  requestPayerName : Bool := false
  requestPayerEmail : Bool := false
  requestPayerPhone : Bool := false
  requestShipping : Bool := false
  requestBilling : Bool := false
  shippingType : Option PaymentShippingType := none
  merchantCapabilities : Option (List String) := none
deriving DecidableEq, Repr

/-- `PaymentAddress` from `types.ts`. -/
structure PaymentAddress where
  recipient : Option String := none
  organization : Option String := none
  addressLine : Option String := none
  city : String := ""
  region : String := ""
  country : String := ""
  postalCode : String := ""
  phone : Option String := none
  languageCode : Option String := none
  sortingCode : Option String := none
  dependentLocality : Option String := none
deriving DecidableEq, Repr

/-- Modelled from the spec (`constants.ts` is not in the sources): the
shipping-address-change event name, as used in `addEventListener`'s type. -/
def SHIPPING_ADDRESS_CHANGE_EVENT : String := "shippingaddresschange"

/-- Modelled from the spec (`constants.ts` is not in the sources): the
shipping-option-change event name, as used in `addEventListener`'s type. -/
def SHIPPING_OPTION_CHANGE_EVENT : String := "shippingoptionchange"

/-! ## Validation helpers, modelled from the spec

`helpers.ts` is not among the provided sources; the four validators are
modelled from the specification (§4.1): each is rendered as a boolean
check, and each call site raises the caller-supplied error kind when the
check fails. -/

/-- Auxiliary digit run for the decimal-number grammar: the characters
must consist of one or more digits optionally followed by a dot and one or
more digits; `seenDigit` records whether a digit has been read so far. -/
def decimalTail : List Char → Bool → Bool
  | [], seenDigit => seenDigit
  | '.' :: rest, seenDigit =>
    seenDigit && !rest.isEmpty && rest.all (fun c => c.isDigit)
  | c :: rest, _ => c.isDigit && decimalTail rest true

/-- Modelled from the spec: the signed/unsigned decimal-number grammar a
monetary `value` string must satisfy — an optional leading minus sign,
then one or more digits, optionally followed by a dot and one or more
digits. -/
def isValidDecimalMonetaryValue (s : String) : Bool :=
  match s.data with
  | '-' :: rest => decimalTail rest false
  | cs => decimalTail cs false

/-- Modelled from the spec: whether a monetary `value` string is negative,
i.e. begins with a minus sign. -/
def isNegativeDecimalValue (s : String) : Bool :=
  match s.data with
  | '-' :: _ => true
  | _ => false

/-- Modelled from the spec (`validateTotal` in the missing `helpers.ts`):
the total must be present, its `amount.value` must satisfy the decimal
grammar, and it must not be negative. -/
def validateTotalOk (total : PaymentItem) : Bool :=
  isValidDecimalMonetaryValue total.amount.value
    && !isNegativeDecimalValue total.amount.value

/-- Modelled from the spec (`validateDisplayItems` in the missing
`helpers.ts`): every display item's `amount.value` must satisfy the
decimal grammar; the list may be empty. -/
def validateDisplayItemsOk (items : List PaymentItem) : Bool :=
  items.all fun item => isValidDecimalMonetaryValue item.amount.value

/-- Pairwise distinctness of a list of ids, as a boolean. -/
def idsUnique : List String → Bool
  | [] => true
  | x :: xs => !(xs.contains x) && idsUnique xs

/-- Modelled from the spec (`validateShippingOptions` in the missing
`helpers.ts`): every shipping option's `amount.value` must satisfy the
decimal grammar and the option ids must be pairwise distinct. -/
def validateShippingOptionsOk (options : List PaymentShippingOption) : Bool :=
  (options.all fun o => isValidDecimalMonetaryValue o.amount.value)
    && idsUnique (options.map fun o => o.id)

/-- Modelled from the spec (`validatePaymentMethods` in the missing
`helpers.ts`): the method-data sequence must be non-empty and every entry
must carry a non-empty `supportedMethods` sequence. -/
def validatePaymentMethodsOk (methodData : List PaymentMethodData) : Bool :=
  !methodData.isEmpty
    && methodData.all fun m => !m.supportedMethods.isEmpty

/-- Modelled from the spec (`getSelectedShippingOption` in the missing
`helpers.ts`): the id of the option marked `selected` (the first such, if
several), or the first option's id, or null when there are no options. -/
def getSelectedShippingOption (options : List PaymentShippingOption) :
    Option String :=
  match options.find? (fun o => o.selected) with
  | some o => some o.id
  | none => (options.head?).map fun o => o.id

/-- The merchant-capability normalization performed by the `PaymentRequest`
constructor: `options.merchantCapabilities.reduce(...)` folds the sequence
into a membership map; rendered as the list of distinct capability tags in
order of first occurrence. -/
def normalizeCapabilities (cs : List String) : List String :=
  cs.foldl (fun m c => if m.contains c then m else m ++ [c]) []

/-! ## The `NativePayments` adapter wrappers (`NativePayments.ts`)

Each wrapper turns the native module's error-first callback into a
promise.  The eventual callback outcome is the explicit `nativeErr`
parameter.  On Android several wrappers short-circuit to success exactly
as in the source. -/

namespace NativePayments

/-- `NativePayments.createPaymentRequest`: resolves immediately on
Android; on iOS resolves or rejects with the native callback's error. -/
def createPaymentRequest (p : Platform) (nativeErr : Option String) :
    Except String Unit :=
  match p with
  | .android => .ok ()
  | .ios =>
    match nativeErr with
    | some err => .error err
    | none => .ok ()

/-- `NativePayments.handleDetailsUpdate`: noop success on Android; on iOS
resolves or rejects with the native callback's error. -/
def handleDetailsUpdate (p : Platform) (nativeErr : Option String) :
    Except String Unit :=
  match p with
  | .android => .ok ()
  | .ios =>
    match nativeErr with
    | some err => .error err
    | none => .ok ()

/-- `NativePayments.show`: on both platforms the promise rejects exactly
when the native layer reports an error. -/
def showNative (p : Platform) (nativeErr : Option String) :
    Except String Bool :=
  match p, nativeErr with
  | _, some err => .error err
  | _, none => .ok true

/-- `NativePayments.abort`: unconditionally resolves on Android (`TODO` in
the source); on iOS resolves or rejects with the native callback's error. -/
def abort (p : Platform) (nativeErr : Option String) : Except String Unit :=
  match p with
  | .android => .ok ()
  | .ios =>
    match nativeErr with
    | some err => .error err
    | none => .ok ()

end NativePayments

/-! ## The response value and the user-accept payload -/

/-- The platform-specific decoded credential data returned by
`_getPlatformDetails` (the `PaymentDetailsIOS` shape from `types.ts`).
Serialized JSON blobs are modelled by their parse result: `none` stands
for an absent, empty or unparseable blob. -/
structure PaymentDetailsIOS where
  paymentData : Option String
  billingContact : Option String
  shippingContact : Option String
  paymentToken : Option String
  transactionIdentifier : String
  paymentMethod : String
deriving DecidableEq, Repr

/-- Modelled from the spec (`PaymentResponse.ts` is not in the sources):
the response value carries exactly the fields the `_handleUserAccept`
handler passes to the `PaymentResponse` constructor. -/
structure PaymentResponse where
  requestId : String
  methodName : String
  shippingAddress : Option PaymentAddress
  details : PaymentDetailsIOS
  shippingOption : Option String
deriving DecidableEq, Repr

/-- The payload of the native user-accept signal, as destructured by
`_handleUserAccept` and `_getPlatformDetails`.  The serialized
`paymentData` string is modelled by its parse result: `none` stands for a
blob that `JSON.parse` would reject; the two contact blobs are modelled
the same way (their parse failures are swallowed by the source). -/
structure UserAcceptDetails where
  transactionIdentifier : String
  paymentData : Option String
  shippingAddress : Option PaymentAddress := none
  payerEmail : String := ""
  paymentToken : Option String := none
  paymentMethod : String := ""
  billingContact : Option String := none
  shippingContact : Option String := none
deriving DecidableEq, Repr

/-- The settlement status of the accept promise allocated by `show()`. -/
inductive PromiseStatus where
  | pending
  | resolved (resp : PaymentResponse)
  | rejected (e : PRError)
deriving DecidableEq, Repr

/-! ## The `PaymentRequest` state machine (`PaymentRequest.ts`) -/

/-- The `PaymentRequest` instance state.  `_acceptPromise = none` means no
promise has been allocated yet; `hasResolverPair` mirrors whether
`_acceptPromiseResolver` / `_acceptPromiseRejecter` are defined.  The four
subscription booleans mirror the `EmitterSubscription` fields (`true`
while registered). -/
structure PaymentRequest where
  id : String
  shippingAddress : Option PaymentAddress
  shippingOption : Option String
  shippingType : Option PaymentShippingType
  _serializedMethodData : List PaymentMethodData
  _details : PaymentDetailsInit
  _options : PaymentOptions
  _state : RState
  _updating : Bool
  _acceptPromise : Option PromiseStatus
  _shippingAddressChangesCount : Nat
  hasResolverPair : Bool
  userDismissSub : Bool
  userAcceptSub : Bool
  shippingAddressChangeSub : Bool
  shippingOptionChangeSub : Bool
deriving DecidableEq, Repr

namespace PaymentRequest

/-- Invocation of the stored resolver (`this._acceptPromiseResolver?.(x)`):
settles the stored promise with the response when the resolver pair exists
and the promise is still pending; otherwise a no-op. -/
def resolveAccept (r : PaymentRequest) (resp : PaymentResponse) :
    PaymentRequest :=
  if r.hasResolverPair then
    match r._acceptPromise with
    | some .pending => { r with _acceptPromise := some (.resolved resp) }
    | _ => r
  else r

/-- Invocation of the stored rejecter (`this._acceptPromiseRejecter?.(e)`):
rejects the stored promise when the resolver pair exists and the promise
is still pending; otherwise a no-op. -/
def rejectAccept (r : PaymentRequest) (e : PRError) : PaymentRequest :=
  if r.hasResolverPair then
    match r._acceptPromise with
    | some .pending => { r with _acceptPromise := some (.rejected e) }
    | _ => r
  else r

/-- JavaScript falsiness of the optional id string: the source's
`!details.id` is true both when the id is absent (`undefined`) and when
it is the empty string. -/
def isFalsyId : Option String → Bool
  | none => true
  | some s => s == ""

/-- The id the constructor establishes: the supplied one when it is
truthy, the injected fresh id otherwise. -/
def establishedId (idIn : Option String) (freshId : String) : String :=
  match idIn with
  | none => freshId
  | some s => if s = "" then freshId else s

/-- Step 3 of the constructor ("Establish the request's id"): assign
`details.id` from the injected unique-id source (`randomUUID`) when the
supplied id is falsy — absent or the empty string (`if (!details.id)`). -/
def establishId (details : PaymentDetailsInit) (freshId : String) :
    PaymentDetailsInit :=
  if isFalsyId details.id then { details with id := some freshId } else details

/-- The `PaymentRequest` constructor.  `freshId` is the value the injected
unique-id source (`randomUUID`) would return; it is consumed only when
`details.id` is absent.  Validation failures raise `ConstructorError`
exactly in the source's order; on success the request starts `created`,
not updating, with no accept promise, subscribed to the two process-wide
signals (plus the two shipping signals on iOS), and the adapter's
`createPaymentRequest` is fired without inspecting its outcome. -/
def construct (p : Platform) (freshId : String)
    (methodData : List PaymentMethodData) (details : PaymentDetailsInit)
    (options : PaymentOptions) : Except PRError PaymentRequest :=
  let options :=
    { options with
      merchantCapabilities := options.merchantCapabilities.map normalizeCapabilities }
  let details := establishId details freshId
  if !validatePaymentMethodsOk methodData then .error .constructorError
  else if !validateTotalOk details.total then .error .constructorError
  else if !validateDisplayItemsOk details.displayItems then .error .constructorError
  else if !validateShippingOptionsOk details.shippingOptions then .error .constructorError
  else
    let selectedShippingOption :=
      if p = .ios then getSelectedShippingOption details.shippingOptions else none
    .ok
      { id := details.id.getD freshId
        shippingAddress := none
        shippingOption := selectedShippingOption
        shippingType :=
          if p = .ios && options.shippingType.isSome && options.requestShipping then
            options.shippingType
          else none
        _serializedMethodData := methodData
        _details := details
        _options := options
        _state := .created
        _updating := false
        _acceptPromise := none
        _shippingAddressChangesCount := 0
        hasResolverPair := false
        userDismissSub := true
        userAcceptSub := true
        shippingAddressChangeSub := p = .ios
        shippingOptionChangeSub := p = .ios }

/-- The `show()` method.  A fresh pending promise and its resolver pair
are installed first (the executor runs synchronously); if the state is not
`created` the new promise is rejected with `InvalidStateError` and the
state is left untouched; otherwise the state becomes `interactive` and the
adapter is asked to present the native UI, a rejection of which rejects
the accept promise with the native error. -/
def show' (r : PaymentRequest) (p : Platform) (nativeErr : Option String) :
    PaymentRequest :=
  let r := { r with _acceptPromise := some .pending, hasResolverPair := true }
  if r._state ≠ .created then
    r.rejectAccept .invalidStateError
  else
    let r := { r with _state := .interactive }
    match NativePayments.showNative p nativeErr with
    | .ok _ => r
    | .error e => r.rejectAccept (.nativeError e)

/-- `_closePaymentRequest(reject)`: transitions to `closed`, rejects the
outstanding promise with `AbortError` when `reject` is set, and removes
the registered subscriptions (the two shipping subscriptions only on
iOS, mirroring the `IS_IOS` guard). -/
def closePaymentRequest (r : PaymentRequest) (p : Platform) (reject : Bool) :
    PaymentRequest :=
  let r := { r with _state := .closed }
  let r := if reject then r.rejectAccept .abortError else r
  let r := { r with userDismissSub := false, userAcceptSub := false }
  if p = .ios then
    { r with shippingAddressChangeSub := false, shippingOptionChangeSub := false }
  else r

/-- `stopRequest()`: closes without rejecting unless already closed. -/
def stopRequest (r : PaymentRequest) (p : Platform) : PaymentRequest :=
  if r._state ≠ .closed then r.closePaymentRequest p false else r

/-- The `abort()` method as written in the source: when the state is not
`interactive` it throws `InvalidStateError`; otherwise it awaits the
adapter's dismiss and closes on success — but in the `catch` branch the
source merely constructs `new Error('InvalidStateError')` without
throwing it, so a failed dismiss leaves the request untouched and the
method still resolves. -/
def abort (r : PaymentRequest) (p : Platform) (nativeErr : Option String) :
    Except PRError PaymentRequest :=
  if r._state ≠ .interactive then .error .invalidStateError
  else
    match NativePayments.abort p nativeErr with
    | .ok _ => .ok (r.closePaymentRequest p true)
    | .error _ => .ok r

/-- `_getPlatformDetails`: throws `Not implemented` off iOS; on iOS,
decodes the serialized blobs — contact parse failures are swallowed to
`null`, the credential blob is skipped on the simulator and otherwise a
parse failure propagates as a thrown JSON error. -/
def getPlatformDetails (p : Platform) (details : UserAcceptDetails) :
    Except PRError PaymentDetailsIOS :=
  if p ≠ .ios then .error .notImplemented
  else
    let isSimulator := details.transactionIdentifier = "Simulated Identifier"
    if isSimulator then
      .ok
        { paymentData := none
          billingContact := details.billingContact
          shippingContact := details.shippingContact
          paymentToken := details.paymentToken
          transactionIdentifier := details.transactionIdentifier
          paymentMethod := details.paymentMethod }
    else
      match details.paymentData with
      | some pd =>
        .ok
          { paymentData := some pd
            billingContact := details.billingContact
            shippingContact := details.shippingContact
            paymentToken := details.paymentToken
            transactionIdentifier := details.transactionIdentifier
            paymentMethod := details.paymentMethod }
      | none => .error .jsonParseError

/-- `_handleUserAccept`: on Android the shipping address is captured from
the signal payload first; then the response is built (where
`_getPlatformDetails` may throw, reported as the second component) and the
stored resolver is invoked with it.  The request state is never
changed. -/
def handleUserAccept (r : PaymentRequest) (p : Platform)
    (details : UserAcceptDetails) : PaymentRequest × Option PRError :=
  let r :=
    if p = .android then { r with shippingAddress := details.shippingAddress }
    else r
  match getPlatformDetails p details with
  | .error e => (r, some e)
  | .ok pd =>
    let paymentResponse : PaymentResponse :=
      { requestId := r.id
        methodName := if p = .ios then "apple-pay" else "android-pay"
        shippingAddress :=
          if r._options.requestShipping then r.shippingAddress else none
        details := pd
        shippingOption := if p = .ios then r.shippingOption else none }
    (r.resolveAccept paymentResponse, none)

/-- `_handleShippingOptionChange`: records the newly selected option id on
the request (the update event it constructs is handed to the
caller-registered listener, whose effects are covered by quantifying over
operation traces). -/
def handleShippingOptionChange (r : PaymentRequest)
    (selectedShippingOptionId : String) : PaymentRequest :=
  { r with shippingOption := some selectedShippingOptionId }

end PaymentRequest

/-! ## The update negotiation protocol (`PaymentRequestUpdateEvent.ts`)

The event holds a non-owning back-reference to its target request; the
embedding passes the event and the request side by side and returns both
updated. -/

/-- The `PaymentRequestUpdateEvent` instance state. -/
structure PaymentRequestUpdateEvent where
  name : String
  _waitForUpdate : Bool
deriving DecidableEq, Repr

/-- The `PaymentRequestUpdateEvent` constructor: only the two shipping
event names are accepted. -/
def PaymentRequestUpdateEvent.create (name : String) :
    Except String PaymentRequestUpdateEvent :=
  if name ≠ SHIPPING_ADDRESS_CHANGE_EVENT ∧ name ≠ SHIPPING_OPTION_CHANGE_EVENT then
    .error "unsupported event listener name"
  else .ok { name := name, _waitForUpdate := false }

/-- `_resetEvent`: clears the event's `waitForUpdate` flag and the target
request's `updating` flag. -/
def resetEvent (ev : PaymentRequestUpdateEvent) (req : PaymentRequest) :
    PaymentRequestUpdateEvent × PaymentRequest :=
  ({ ev with _waitForUpdate := false }, { req with _updating := false })

/-- `_handleDetailsChange(value)`: validation failures throw synchronously
(outer `Except.error`, leaving the request and the event untouched — the
flags set by `updateWith` are not reset); on success the target's details
are replaced first, then the adapter's detail-update call either succeeds
— flags reset, and on iOS the shipping-option-change handler is re-fired
with the first option's id when options are present — or fails — flags
reset and the returned negotiation promise rejects with `AbortError`. -/
def handleDetailsChange (p : Platform) (hdErr : Option String)
    (ev : PaymentRequestUpdateEvent) (req : PaymentRequest)
    (value : PaymentDetailsInit) :
    Except PRError
      (PaymentRequestUpdateEvent × PaymentRequest × Except PRError Unit) :=
  if !validateTotalOk value.total then .error .domException
  else if !validateDisplayItemsOk value.displayItems then .error .domException
  else if !validateShippingOptionsOk value.shippingOptions then .error .domException
  else
    let req := { req with _details := value }
    match NativePayments.handleDetailsUpdate p hdErr with
    | .ok _ =>
      let (ev, req) := resetEvent ev req
      let req :=
        if p = .ios then
          match req._details.shippingOptions with
          | [] => req
          | o :: _ => req.handleShippingOptionChange o.id
        else req
      .ok (ev, req, .ok ())
    | .error _ =>
      let (ev, req) := resetEvent ev req
      .ok (ev, req, .error .abortError)

deriving instance DecidableEq for Except

/-- The argument shapes `updateWith` distinguishes, following `isPromise`
and the `typeof ... === 'object'` test: a thenable (whose settlement, when
it occurs within the observation window, is the payload — `none` stands
for a thenable that has not settled yet), a plain detail object, `null` or
`undefined` (on which `isPromise`'s `value.then` property access raises a
native `TypeError`), or any other non-object value such as a string or a
number (on which the property access yields `undefined` and both tests
fail). -/
inductive UpdateWithArg where
  | promise (settlement : Option (Except PRError PaymentDetailsInit))
  | obj (value : PaymentDetailsInit)
  | nullish
  | other
deriving DecidableEq, Repr

/-- The observable outcome of an `updateWith` call: a synchronous throw, a
bare `undefined` return (the fall-through when the argument is neither a
thenable nor an object), or a returned negotiation promise that is still
pending or has settled. -/
inductive UpdateWithOutcome where
  | threw (e : PRError)
  | returnedUndefined
  | promisePending
  | promiseSettled (result : Except PRError Unit)
deriving DecidableEq, Repr

/-- `updateWith(detailsOrPromise)`.  `targetIsPaymentRequest` embeds the
`target instanceof PaymentRequest` test.  The guards throw `TypeError` /
`InvalidStateError` before any mutation; past them, the event's
`waitForUpdate` and the target's `updating` flags are set, and the
argument is consumed: a thenable is chained onto `_handleDetailsChange`
with no rejection handler (its rejection propagates unchanged and the
handler never runs), a plain object is handed to `_handleDetailsChange`
synchronously (whose validation throw escapes `updateWith` itself), a
`null` or `undefined` argument crashes `isPromise` with a native
`TypeError` (the flags, already set, stay set), and any other value falls
through to a bare return. -/
def updateWith (p : Platform) (hdErr : Option String)
    (targetIsPaymentRequest : Bool) (ev : PaymentRequestUpdateEvent)
    (req : PaymentRequest) (arg : UpdateWithArg) :
    PaymentRequestUpdateEvent × PaymentRequest × UpdateWithOutcome :=
  if !targetIsPaymentRequest then (ev, req, .threw .typeError)
  else if ev._waitForUpdate then (ev, req, .threw .invalidStateError)
  else if req._state ≠ .interactive then (ev, req, .threw .invalidStateError)
  else if req._updating then (ev, req, .threw .invalidStateError)
  else
    let ev := { ev with _waitForUpdate := true }
    let req := { req with _updating := true }
    match arg with
    | .promise none => (ev, req, .promisePending)
    | .promise (some (.error e)) => (ev, req, .promiseSettled (.error e))
    | .promise (some (.ok value)) =>
      match handleDetailsChange p hdErr ev req value with
      | .error e => (ev, req, .promiseSettled (.error e))
      | .ok (ev2, req2, res) => (ev2, req2, .promiseSettled res)
    | .obj value =>
      match handleDetailsChange p hdErr ev req value with
      | .error e => (ev, req, .threw e)
      | .ok (ev2, req2, res) => (ev2, req2, .promiseSettled res)
    | .nullish => (ev, req, .threw .runtimeTypeError)
    | .other => (ev, req, .returnedUndefined)

/-- `_handleShippingAddressChange(postalAddress)`: records the address and
bumps the change counter; on iOS the first invocation short-circuits into
`event.updateWith(this._details)` with a fresh event (a throw from that
call escapes the handler, leaving the mutations made so far in place);
otherwise the caller-registered listener receives the event (its effects
are covered by quantifying over operation traces). -/
def PaymentRequest.handleShippingAddressChange (r : PaymentRequest)
    (p : Platform) (hdErr : Option String) (postalAddress : PaymentAddress) :
    PaymentRequest :=
  let r := { r with shippingAddress := some postalAddress }
  let r :=
    { r with _shippingAddressChangesCount := r._shippingAddressChangesCount + 1 }
  if p = .ios ∧ r._shippingAddressChangesCount = 1 then
    let ev : PaymentRequestUpdateEvent :=
      { name := SHIPPING_ADDRESS_CHANGE_EVENT, _waitForUpdate := false }
    (updateWith p hdErr true ev r (.obj r._details)).2.1
  else r

/-! ## Operation traces

The lifecycle claims quantify over arbitrary interleavings of caller
calls and native signals after construction.  `Op` is the alphabet of
those operations (each carrying the outcome of the adapter call it may
await) and `runOps` folds a trace over a request.  Caller-registered
shipping listeners are arbitrary user code; any sequence of API calls
they could make is itself a trace, so quantifying over traces covers
their effects. -/

/-- One operation of a request's lifecycle. -/
inductive Op where
  | showOp (nativeErr : Option String)
  | abortOp (nativeErr : Option String)
  | stopRequestOp
  | userDismiss
  | userAccept (details : UserAcceptDetails)
  | shippingAddressChange (hdErr : Option String) (addr : PaymentAddress)
  | shippingOptionChange (selectedId : String)
  | updateNegotiation (evWaitForUpdate : Bool) (hdErr : Option String)
      (arg : UpdateWithArg)

/-- Apply one operation to a request, keeping the request component of the
result (thrown errors leave the request as the operation left it). -/
def applyOp (p : Platform) (r : PaymentRequest) : Op → PaymentRequest
  | .showOp e => r.show' p e
  | .abortOp e =>
    match r.abort p e with
    | .ok r2 => r2
    | .error _ => r
  | .stopRequestOp => r.stopRequest p
  | .userDismiss => r.closePaymentRequest p true
  | .userAccept d => (r.handleUserAccept p d).1
  | .shippingAddressChange e a => r.handleShippingAddressChange p e a
  | .shippingOptionChange i => r.handleShippingOptionChange i
  | .updateNegotiation w e arg =>
    (updateWith p e true
      { name := SHIPPING_ADDRESS_CHANGE_EVENT, _waitForUpdate := w } r arg).2.1

/-- Run a trace of operations over a request. -/
def runOps (p : Platform) (r : PaymentRequest) (ops : List Op) : PaymentRequest :=
  ops.foldl (applyOp p) r

/-- The progress order of the lifecycle states: `created` (0) →
`interactive` (1) → `closed` (2). -/
def stateRank : RState → Nat
  | .created => 0
  | .interactive => 1
  | .closed => 2

/-! ## Helper lemmas

Field-preservation facts about each operation, used by the lifecycle
theorems below. -/

theorem handleDetailsChange_ok (p : Platform) (hd : Option String)
    (ev : PaymentRequestUpdateEvent) (req : PaymentRequest)
    (value : PaymentDetailsInit)
    (out : PaymentRequestUpdateEvent × PaymentRequest × Except PRError Unit)
    (h : handleDetailsChange p hd ev req value = .ok out) :
    out.2.1._state = req._state ∧
    out.2.1.hasResolverPair = req.hasResolverPair ∧
    out.2.1._acceptPromise = req._acceptPromise ∧
    out.2.1._updating = false ∧
    out.1._waitForUpdate = false ∧
    out.2.1._details = value := by
  unfold handleDetailsChange at h
  split at h
  · exact absurd h (by simp)
  split at h
  · exact absurd h (by simp)
  split at h
  · exact absurd h (by simp)
  dsimp only [resetEvent] at h
  split at h
  · split at h
    · split at h <;>
        (injection h with h; subst h;
         simp [PaymentRequest.handleShippingOptionChange])
    · injection h with h; subst h; simp
  · injection h with h; subst h; simp

theorem updateWith_req (p : Platform) (hd : Option String) (t : Bool)
    (ev : PaymentRequestUpdateEvent) (req : PaymentRequest)
    (arg : UpdateWithArg) :
    (updateWith p hd t ev req arg).2.1._state = req._state ∧
    (updateWith p hd t ev req arg).2.1.hasResolverPair = req.hasResolverPair ∧
    (updateWith p hd t ev req arg).2.1._acceptPromise = req._acceptPromise := by
  unfold updateWith
  split
  · exact ⟨rfl, rfl, rfl⟩
  split
  · exact ⟨rfl, rfl, rfl⟩
  split
  · exact ⟨rfl, rfl, rfl⟩
  split
  · exact ⟨rfl, rfl, rfl⟩
  cases arg with
  | promise s =>
    match s with
    | none => exact ⟨rfl, rfl, rfl⟩
    | some (.error e) => exact ⟨rfl, rfl, rfl⟩
    | some (.ok value) =>
      dsimp only
      split
      · exact ⟨rfl, rfl, rfl⟩
      next out heq =>
        have hout := handleDetailsChange_ok _ _ _ _ _ _ heq
        simp_all
  | obj value =>
    dsimp only
    split
    · exact ⟨rfl, rfl, rfl⟩
    next out heq =>
      have hout := handleDetailsChange_ok _ _ _ _ _ _ heq
      simp_all
  | nullish => exact ⟨rfl, rfl, rfl⟩
  | other => exact ⟨rfl, rfl, rfl⟩

theorem updateWith_of_updating (p : Platform) (hd : Option String) (t : Bool)
    (ev : PaymentRequestUpdateEvent) (req : PaymentRequest)
    (arg : UpdateWithArg) (h : req._updating = true) :
    (updateWith p hd t ev req arg).2.1 = req ∧
    (t = true → (updateWith p hd t ev req arg).2.2 = .threw .invalidStateError) := by
  unfold updateWith
  split
  · exact ⟨rfl, fun ht => by simp_all⟩
  split
  · exact ⟨rfl, fun _ => rfl⟩
  split
  · exact ⟨rfl, fun _ => rfl⟩
  simp [h]

theorem rejectAccept_fields (r : PaymentRequest) (e : PRError) :
    (r.rejectAccept e)._state = r._state ∧
    (r.rejectAccept e).hasResolverPair = r.hasResolverPair ∧
    (r.rejectAccept e)._updating = r._updating := by
  unfold PaymentRequest.rejectAccept
  split
  · split <;> exact ⟨rfl, rfl, rfl⟩
  · exact ⟨rfl, rfl, rfl⟩

theorem resolveAccept_fields (r : PaymentRequest) (resp : PaymentResponse) :
    (r.resolveAccept resp)._state = r._state ∧
    (r.resolveAccept resp).hasResolverPair = r.hasResolverPair ∧
    (r.resolveAccept resp)._updating = r._updating := by
  unfold PaymentRequest.resolveAccept
  split
  · split <;> exact ⟨rfl, rfl, rfl⟩
  · exact ⟨rfl, rfl, rfl⟩

theorem show'_pair (r : PaymentRequest) (p : Platform) (e : Option String) :
    (r.show' p e).hasResolverPair = true := by
  unfold PaymentRequest.show' NativePayments.showNative PaymentRequest.rejectAccept
  dsimp only
  repeat' split
  all_goals simp_all

theorem show'_updating (r : PaymentRequest) (p : Platform) (e : Option String) :
    (r.show' p e)._updating = r._updating := by
  unfold PaymentRequest.show' NativePayments.showNative PaymentRequest.rejectAccept
  dsimp only
  repeat' split
  all_goals simp_all

theorem closePaymentRequest_fields (r : PaymentRequest) (p : Platform)
    (rej : Bool) :
    (r.closePaymentRequest p rej)._state = .closed ∧
    (r.closePaymentRequest p rej).hasResolverPair = r.hasResolverPair ∧
    (r.closePaymentRequest p rej)._updating = r._updating := by
  unfold PaymentRequest.closePaymentRequest PaymentRequest.rejectAccept
  dsimp only
  repeat' split
  all_goals simp_all

theorem stopRequest_fields (r : PaymentRequest) (p : Platform) :
    (r.stopRequest p)._state = .closed ∧
    (r.stopRequest p).hasResolverPair = r.hasResolverPair ∧
    (r.stopRequest p)._updating = r._updating := by
  unfold PaymentRequest.stopRequest
  split
  · exact closePaymentRequest_fields r p false
  · next h => exact ⟨by simpa using h, rfl, rfl⟩

theorem handleUserAccept_fields (r : PaymentRequest) (p : Platform)
    (d : UserAcceptDetails) :
    (r.handleUserAccept p d).1._state = r._state ∧
    (r.handleUserAccept p d).1.hasResolverPair = r.hasResolverPair ∧
    (r.handleUserAccept p d).1._updating = r._updating := by
  unfold PaymentRequest.handleUserAccept PaymentRequest.resolveAccept
  dsimp only
  repeat' split
  all_goals simp_all

theorem handleShippingAddressChange_fields (r : PaymentRequest) (p : Platform)
    (hd : Option String) (a : PaymentAddress) :
    (r.handleShippingAddressChange p hd a)._state = r._state ∧
    (r.handleShippingAddressChange p hd a).hasResolverPair = r.hasResolverPair ∧
    (r.handleShippingAddressChange p hd a)._acceptPromise = r._acceptPromise := by
  unfold PaymentRequest.handleShippingAddressChange
  dsimp only
  split
  · exact ⟨(updateWith_req _ _ _ _ _ _).1, (updateWith_req _ _ _ _ _ _).2.1,
      (updateWith_req _ _ _ _ _ _).2.2⟩
  · exact ⟨rfl, rfl, rfl⟩

theorem show'_state (r : PaymentRequest) (p : Platform) (e : Option String) :
    (r.show' p e)._state = if r._state = .created then .interactive else r._state := by
  unfold PaymentRequest.show' NativePayments.showNative PaymentRequest.rejectAccept
  dsimp only
  repeat' split
  all_goals simp_all

theorem abort_ok_fields (r : PaymentRequest) (p : Platform) (e : Option String)
    (r2 : PaymentRequest) (h : r.abort p e = .ok r2) :
    r2.hasResolverPair = r.hasResolverPair ∧
    r2._updating = r._updating ∧
    (r2._state = r._state ∨ r2._state = .closed) := by
  unfold PaymentRequest.abort at h
  split at h
  · exact absurd h (by simp)
  · split at h <;> injection h with h <;> subst h
    · exact ⟨(closePaymentRequest_fields _ _ _).2.1,
        (closePaymentRequest_fields _ _ _).2.2,
        .inr (closePaymentRequest_fields _ _ _).1⟩
    · exact ⟨rfl, rfl, .inl rfl⟩

theorem handleShippingAddressChange_updating (r : PaymentRequest) (p : Platform)
    (hd : Option String) (a : PaymentAddress) (h : r._updating = true) :
    (r.handleShippingAddressChange p hd a)._updating = true := by
  unfold PaymentRequest.handleShippingAddressChange
  dsimp only
  split
  · rw [(updateWith_of_updating _ _ _ _ _ _ (by simpa using h)).1]
    simpa using h
  · simpa using h

def isShowOp : Op → Bool
  | .showOp _ => true
  | _ => false

theorem stateRank_le_two (s : RState) : stateRank s ≤ 2 := by
  cases s <;> simp [stateRank]

theorem applyOp_stateRank (p : Platform) (r : PaymentRequest) (op : Op) :
    stateRank r._state ≤ stateRank (applyOp p r op)._state := by
  cases op with
  | showOp e =>
    dsimp only [applyOp]
    rw [show'_state]
    by_cases h : r._state = .created <;> simp [h, stateRank]
  | abortOp e =>
    dsimp only [applyOp]
    split
    · next r2 heq =>
      rcases (abort_ok_fields _ _ _ _ heq).2.2 with h | h <;> rw [h]
      exact stateRank_le_two _
    · exact le_refl _
  | stopRequestOp =>
    dsimp only [applyOp]
    rw [(stopRequest_fields r p).1]
    exact stateRank_le_two _
  | userDismiss =>
    dsimp only [applyOp]
    rw [(closePaymentRequest_fields r p true).1]
    exact stateRank_le_two _
  | userAccept d =>
    dsimp only [applyOp]
    rw [(handleUserAccept_fields r p d).1]
  | shippingAddressChange e a =>
    dsimp only [applyOp]
    rw [(handleShippingAddressChange_fields r p e a).1]
  | shippingOptionChange i =>
    exact le_refl _
  | updateNegotiation w e arg =>
    dsimp only [applyOp]
    rw [(updateWith_req _ _ _ _ _ _).1]

theorem applyOp_pair (p : Platform) (r : PaymentRequest) (op : Op) :
    (applyOp p r op).hasResolverPair = (r.hasResolverPair || isShowOp op) := by
  cases op with
  | showOp e => simp [applyOp, isShowOp, show'_pair]
  | abortOp e =>
    dsimp only [applyOp, isShowOp]
    split
    · next r2 heq => simp [(abort_ok_fields _ _ _ _ heq).1]
    · simp
  | stopRequestOp => simp [applyOp, isShowOp, (stopRequest_fields r p).2.1]
  | userDismiss => simp [applyOp, isShowOp, (closePaymentRequest_fields r p true).2.1]
  | userAccept d => simp [applyOp, isShowOp, (handleUserAccept_fields r p d).2.1]
  | shippingAddressChange e a =>
    simp [applyOp, isShowOp, (handleShippingAddressChange_fields r p e a).2.1]
  | shippingOptionChange i => simp [applyOp, isShowOp, PaymentRequest.handleShippingOptionChange]
  | updateNegotiation w e arg =>
    simp [applyOp, isShowOp, (updateWith_req p e true _ r arg).2.1]

theorem applyOp_state_cases (p : Platform) (r : PaymentRequest) (op : Op)
    (hnotshow : isShowOp op = false) :
    (applyOp p r op)._state = r._state ∨ (applyOp p r op)._state = .closed := by
  cases op with
  | showOp e => simp [isShowOp] at hnotshow
  | abortOp e =>
    dsimp only [applyOp]
    split
    · next r2 heq => exact (abort_ok_fields _ _ _ _ heq).2.2
    · exact .inl rfl
  | stopRequestOp => exact .inr (stopRequest_fields r p).1
  | userDismiss => exact .inr (closePaymentRequest_fields r p true).1
  | userAccept d => exact .inl (handleUserAccept_fields r p d).1
  | shippingAddressChange e a => exact .inl (handleShippingAddressChange_fields r p e a).1
  | shippingOptionChange i => exact .inl rfl
  | updateNegotiation w e arg => exact .inl (updateWith_req _ _ _ _ _ _).1

theorem applyOp_interactive_pair (p : Platform) (r : PaymentRequest) (op : Op)
    (hInv : r._state = .interactive → r.hasResolverPair = true) :
    (applyOp p r op)._state = .interactive →
      (applyOp p r op).hasResolverPair = true := by
  intro hst
  by_cases hshow : isShowOp op = true
  · cases op with
    | showOp e => simp [applyOp, show'_pair]
    | abortOp e => simp [isShowOp] at hshow
    | stopRequestOp => simp [isShowOp] at hshow
    | userDismiss => simp [isShowOp] at hshow
    | userAccept d => simp [isShowOp] at hshow
    | shippingAddressChange e a => simp [isShowOp] at hshow
    | shippingOptionChange i => simp [isShowOp] at hshow
    | updateNegotiation w e arg => simp [isShowOp] at hshow
  · have hns : isShowOp op = false := by simpa using hshow
    rcases applyOp_state_cases p r op hns with h | h
    · rw [applyOp_pair, hns, Bool.or_false]
      exact hInv (by rw [← h, hst])
    · rw [hst] at h
      exact absurd h (by simp)

theorem applyOp_updating_absorb (p : Platform) (r : PaymentRequest) (op : Op)
    (h : r._updating = true) : (applyOp p r op)._updating = true := by
  cases op with
  | showOp e => rw [applyOp, show'_updating]; exact h
  | abortOp e =>
    dsimp only [applyOp]
    split
    · next r2 heq => rw [(abort_ok_fields _ _ _ _ heq).2.1]; exact h
    · exact h
  | stopRequestOp => rw [applyOp, (stopRequest_fields r p).2.2]; exact h
  | userDismiss => rw [applyOp, (closePaymentRequest_fields r p true).2.2]; exact h
  | userAccept d => rw [applyOp, (handleUserAccept_fields r p d).2.2]; exact h
  | shippingAddressChange e a => exact handleShippingAddressChange_updating r p e a h
  | shippingOptionChange i => exact h
  | updateNegotiation w e arg =>
    dsimp only [applyOp]
    rw [(updateWith_of_updating _ _ _ _ _ _ h).1]
    exact h

theorem runOps_stateRank (p : Platform) (ops : List Op) (r : PaymentRequest) :
    stateRank r._state ≤ stateRank (runOps p r ops)._state := by
  induction ops generalizing r with
  | nil => exact le_refl _
  | cons op rest ih =>
    exact le_trans (applyOp_stateRank p r op) (ih (applyOp p r op))

theorem runOps_pair (p : Platform) (ops : List Op) (r : PaymentRequest) :
    (runOps p r ops).hasResolverPair
      = (r.hasResolverPair || ops.any fun op => isShowOp op) := by
  induction ops generalizing r with
  | nil => simp [runOps]
  | cons op rest ih =>
    have : runOps p r (op :: rest) = runOps p (applyOp p r op) rest := rfl
    rw [this, ih, applyOp_pair]
    simp [Bool.or_assoc]

theorem runOps_interactive_pair (p : Platform) (ops : List Op)
    (r : PaymentRequest)
    (hInv : r._state = .interactive → r.hasResolverPair = true) :
    (runOps p r ops)._state = .interactive →
      (runOps p r ops).hasResolverPair = true := by
  induction ops generalizing r with
  | nil => exact hInv
  | cons op rest ih =>
    exact ih (applyOp p r op) (applyOp_interactive_pair p r op hInv)

theorem runOps_updating_absorb (p : Platform) (ops : List Op)
    (r : PaymentRequest) (h : r._updating = true) :
    (runOps p r ops)._updating = true := by
  induction ops generalizing r with
  | nil => exact h
  | cons op rest ih =>
    exact ih (applyOp p r op) (applyOp_updating_absorb p r op h)

/-- The id established at construction is the supplied one when truthy
and the injected fresh id otherwise (the source tests `!details.id`, so
an empty-string id is also replaced). -/
theorem establishId_id (details : PaymentDetailsInit) (freshId : String) :
    (PaymentRequest.establishId details freshId).id
      = some (PaymentRequest.establishedId details.id freshId) := by
  unfold PaymentRequest.establishId PaymentRequest.isFalsyId
    PaymentRequest.establishedId
  cases h : details.id with
  | none => simp [h]
  | some s => by_cases hs : s = "" <;> simp [h, hs]

/-- Everything the constructor guarantees about a successfully constructed
request. -/
theorem construct_ok_spec (p : Platform) (freshId : String)
    (md : List PaymentMethodData) (details : PaymentDetailsInit)
    (opts : PaymentOptions) (r0 : PaymentRequest)
    (h : PaymentRequest.construct p freshId md details opts = .ok r0) :
    r0._state = .created ∧
    r0._updating = false ∧
    r0._acceptPromise = none ∧
    r0.hasResolverPair = false ∧
    r0.shippingAddress = none ∧
    r0.id = PaymentRequest.establishedId details.id freshId ∧
    r0._details.id = some (PaymentRequest.establishedId details.id freshId) := by
  unfold PaymentRequest.construct at h
  dsimp only at h
  split at h
  · exact absurd h (by simp)
  split at h
  · exact absurd h (by simp)
  split at h
  · exact absurd h (by simp)
  split at h
  · exact absurd h (by simp)
  injection h with h
  subst h
  refine ⟨rfl, rfl, rfl, rfl, rfl, ?_, establishId_id details freshId⟩
  dsimp only
  rw [establishId_id]
  rfl

/-! ## Concrete fixtures

A valid constructor input and the requests reachable from it, used by the
closed counterexamples and witnesses. -/

/-- A valid method-data list. -/
def sampleMethodData : List PaymentMethodData :=
  [{ supportedMethods := ["apple-pay"] }]

/-- A valid total. -/
def sampleTotal : PaymentItem :=
  { label := "Total", amount := { currency := "USD", value := "10.00" } }

/-- Valid details carrying no id of their own. -/
def sampleDetails : PaymentDetailsInit := { total := sampleTotal }

/-- Options requesting shipping. -/
def sampleOptions : PaymentOptions := { requestShipping := true }

/-- A concrete shipping address. -/
def sampleAddress : PaymentAddress := { city := "Lisbon", country := "PT" }

/-- A user-accept payload carrying a shipping address and a decodable
credential blob. -/
def sampleAcceptDetails : UserAcceptDetails :=
  { transactionIdentifier := "txn-1", paymentData := some "blob",
    shippingAddress := some sampleAddress }

/-- The request `construct .ios "uuid-1" sampleMethodData sampleDetails
sampleOptions` produces. -/
def iosCreated : PaymentRequest :=
  { id := "uuid-1"
    shippingAddress := none
    shippingOption := none
    shippingType := none
    _serializedMethodData := sampleMethodData
    _details := { id := some "uuid-1", total := sampleTotal }
    _options := sampleOptions
    _state := .created
    _updating := false
    _acceptPromise := none
    _shippingAddressChangesCount := 0
    hasResolverPair := false
    userDismissSub := true
    userAcceptSub := true
    shippingAddressChangeSub := true
    shippingOptionChangeSub := true }

/-- The request `construct .android "uuid-1" sampleMethodData sampleDetails
sampleOptions` produces. -/
def androidCreated : PaymentRequest :=
  { iosCreated with
    shippingAddressChangeSub := false
    shippingOptionChangeSub := false }

/-- The iOS request after a successful `show()`. -/
def iosInteractive : PaymentRequest := iosCreated.show' .ios none

/-- The Android request after a successful `show()`. -/
def androidInteractive : PaymentRequest := androidCreated.show' .android none

/-- A freshly constructed shipping-address-change update event. -/
def freshAddressChangeEvent : PaymentRequestUpdateEvent :=
  { name := SHIPPING_ADDRESS_CHANGE_EVENT, _waitForUpdate := false }

/-! ## The claims -/

/-- C4: for every `PaymentRequest` and every sequence of operations
(`show`, `abort`, `stopRequest`, the user-dismiss / user-accept /
shipping-change signal handlers, and caller-started update negotiations),
the `_state` field only ever advances along
`created → interactive → closed`; no operation moves it backwards. -/
theorem C4_state_monotone (p : Platform) (r : PaymentRequest) (ops : List Op) :
    stateRank r._state ≤ stateRank (runOps p r ops)._state :=
  runOps_stateRank p ops r

/-- C6: calling `show()` when the state is not `created` (in particular a
second `show()` call) leaves the state unchanged and the returned promise
rejects with `InvalidStateError`. -/
theorem C6_second_show_fails (r : PaymentRequest) (p : Platform)
    (e : Option String) (h : r._state ≠ .created) :
    (r.show' p e)._state = r._state ∧
    (r.show' p e)._acceptPromise = some (.rejected .invalidStateError) := by
  refine ⟨by rw [show'_state]; simp [h], ?_⟩
  unfold PaymentRequest.show' PaymentRequest.rejectAccept
  dsimp only
  simp [h]

/-- Witness for C6 at the concrete interactive request reached by a first
`show()`: the second `show()` rejects with `InvalidStateError` and leaves
the state `interactive`. -/
theorem C6_second_show_fails_witness :
    (iosInteractive.show' .ios none)._state = iosInteractive._state ∧
    (iosInteractive.show' .ios none)._acceptPromise
      = some (.rejected .invalidStateError) :=
  C6_second_show_fails iosInteractive .ios none (by decide)

/-- C7: every successfully validated construction yields a request in
state `created`, not updating, with a null shipping address and no
accept promise; an absent `details.id` is replaced by the injected fresh
id (as is an empty-string id, since the source tests `!details.id`), and
the request's `id` attribute equals the established `details.id`. -/
theorem C7_constructor_initial_state (p : Platform) (freshId : String)
    (md : List PaymentMethodData) (details : PaymentDetailsInit)
    (opts : PaymentOptions) (r0 : PaymentRequest)
    (h : PaymentRequest.construct p freshId md details opts = .ok r0) :
    r0._state = .created ∧
    r0._updating = false ∧
    r0.shippingAddress = none ∧
    r0._acceptPromise = none ∧
    r0.hasResolverPair = false ∧
    r0.id = PaymentRequest.establishedId details.id freshId ∧
    r0._details.id = some r0.id ∧
    (details.id = none → r0.id = freshId) ∧
    (details.id = some "" → r0.id = freshId) := by
  obtain ⟨h1, h2, h3, h4, h5, h6, h7⟩ :=
    construct_ok_spec p freshId md details opts r0 h
  refine ⟨h1, h2, h5, h3, h4, h6, by rw [h6]; exact h7, ?_, ?_⟩
  · intro hnone
    rw [h6, hnone]
    rfl
  · intro hempty
    rw [h6, hempty]
    rfl

/-- Witness for C7 at the concrete valid input whose details carry no id:
the constructed request is `iosCreated`, in state `created` with the
injected id `"uuid-1"`. -/
theorem C7_constructor_initial_state_witness :
    iosCreated._state = .created ∧
    iosCreated._updating = false ∧
    iosCreated.shippingAddress = none ∧
    iosCreated._acceptPromise = none ∧
    iosCreated.hasResolverPair = false ∧
    iosCreated.id = PaymentRequest.establishedId sampleDetails.id "uuid-1" ∧
    iosCreated._details.id = some iosCreated.id ∧
    (sampleDetails.id = none → iosCreated.id = "uuid-1") ∧
    (sampleDetails.id = some "" → iosCreated.id = "uuid-1") :=
  C7_constructor_initial_state .ios "uuid-1" sampleMethodData sampleDetails
    sampleOptions iosCreated (by decide)

/-- C9: handling the user-dismiss signal on a request whose accept
promise is outstanding closes the request, rejects the promise with
`AbortError`, and removes every signal subscription the request holds
(on Android the two shipping subscriptions were never registered). -/
theorem C9_user_dismiss (r : PaymentRequest) (p : Platform)
    (hpair : r.hasResolverPair = true)
    (hpending : r._acceptPromise = some .pending)
    (hsubs : p = .android →
      r.shippingAddressChangeSub = false ∧ r.shippingOptionChangeSub = false) :
    (r.closePaymentRequest p true)._state = .closed ∧
    (r.closePaymentRequest p true)._acceptPromise
      = some (.rejected .abortError) ∧
    (r.closePaymentRequest p true).userDismissSub = false ∧
    (r.closePaymentRequest p true).userAcceptSub = false ∧
    (r.closePaymentRequest p true).shippingAddressChangeSub = false ∧
    (r.closePaymentRequest p true).shippingOptionChangeSub = false := by
  unfold PaymentRequest.closePaymentRequest PaymentRequest.rejectAccept
  dsimp only
  cases p
  · simp [hpair, hpending]
  · simp [hpair, hpending, (hsubs rfl).1, (hsubs rfl).2]

/-- Witness for C9 at the interactive iOS request reached by `show()`:
the dismiss signal closes it, rejects with `AbortError`, and clears all
four subscriptions. -/
theorem C9_user_dismiss_witness :
    (iosInteractive.closePaymentRequest .ios true)._state = .closed ∧
    (iosInteractive.closePaymentRequest .ios true)._acceptPromise
      = some (.rejected .abortError) ∧
    (iosInteractive.closePaymentRequest .ios true).userDismissSub = false ∧
    (iosInteractive.closePaymentRequest .ios true).userAcceptSub = false ∧
    (iosInteractive.closePaymentRequest .ios true).shippingAddressChangeSub
      = false ∧
    (iosInteractive.closePaymentRequest .ios true).shippingOptionChangeSub
      = false :=
  C9_user_dismiss iosInteractive .ios (by decide) (by decide) (by decide)

/-- C1: the code's `abort()` at the failing input.  On the interactive
request reached by `show()`, a failing adapter dismiss makes `abort()`
resolve successfully with the request untouched — the `catch` branch
builds `new Error('InvalidStateError')` but never throws it — while a
successful dismiss closes the request and rejects the accept promise
with `AbortError` as the claim states. -/
theorem C1_abort_dismiss_failure :
    PaymentRequest.construct .ios "uuid-1" sampleMethodData sampleDetails
        sampleOptions = .ok iosCreated
    ∧ iosInteractive._state = .interactive
    ∧ iosInteractive._acceptPromise = some .pending
    ∧ iosInteractive.abort .ios (some "dismiss failed") = .ok iosInteractive
    ∧ iosInteractive.abort .ios none
        = .ok (iosInteractive.closePaymentRequest .ios true)
    ∧ (iosInteractive.closePaymentRequest .ios true)._state = .closed
    ∧ (iosInteractive.closePaymentRequest .ios true)._acceptPromise
        = some (.rejected .abortError) := by
  refine ⟨by decide, by decide, by decide, by decide, by decide, by decide,
    by decide⟩

/-- C5 counterexample: a reachable point where the resolver pair exists
while the state is not `interactive` — after `show()` and a user-dismiss
the request is `closed` but `_closePaymentRequest` never clears the
resolver pair. -/
theorem C5_counterexample :
    PaymentRequest.construct .ios "uuid-1" sampleMethodData sampleDetails
        sampleOptions = .ok iosCreated
    ∧ (runOps .ios iosCreated [.showOp none, .userDismiss])._state = .closed
    ∧ (runOps .ios iosCreated [.showOp none, .userDismiss]).hasResolverPair
        = true := by
  refine ⟨by decide, by decide, by decide⟩

/-- C5 amended: at every reachable point after a valid construction, the
accept-promise resolver pair exists exactly when `show()` has been called
at least once — every `show()` call installs it (even a failing one) and
nothing ever clears it; in particular the pair always exists while the
state is `interactive`. -/
theorem C5_amended_pair_iff_shown (p : Platform) (freshId : String)
    (md : List PaymentMethodData) (details : PaymentDetailsInit)
    (opts : PaymentOptions) (r0 : PaymentRequest) (ops : List Op)
    (h : PaymentRequest.construct p freshId md details opts = .ok r0) :
    (runOps p r0 ops).hasResolverPair = (ops.any fun op => isShowOp op)
    ∧ ((runOps p r0 ops)._state = .interactive →
        (runOps p r0 ops).hasResolverPair = true) := by
  obtain ⟨hstate, -, -, hpair, -, -, -⟩ :=
    construct_ok_spec p freshId md details opts r0 h
  constructor
  · rw [runOps_pair, hpair, Bool.false_or]
  · refine runOps_interactive_pair p ops r0 ?_
    intro hint
    rw [hstate] at hint
    exact absurd hint (by simp)

/-- Witness for C5 amended on the trace `show(); dismiss`: the pair
exists afterwards (a show occurred) and the interactive-implies-pair
implication holds. -/
theorem C5_amended_pair_iff_shown_witness :
    (runOps .ios iosCreated [.showOp none, .userDismiss]).hasResolverPair
      = ([Op.showOp none, Op.userDismiss].any fun op => isShowOp op)
    ∧ ((runOps .ios iosCreated [.showOp none, .userDismiss])._state
          = .interactive →
        (runOps .ios iosCreated [.showOp none, .userDismiss]).hasResolverPair
          = true) :=
  C5_amended_pair_iff_shown .ios "uuid-1" sampleMethodData sampleDetails
    sampleOptions iosCreated [.showOp none, .userDismiss] (by decide)

/-- Past the guards, `updateWith` with a still-pending thenable sets both
flags and returns the pending negotiation. -/
theorem updateWith_pending_eq (p : Platform) (hd : Option String)
    (ev : PaymentRequestUpdateEvent) (req : PaymentRequest)
    (hw : ev._waitForUpdate = false) (hs : req._state = .interactive)
    (hu : req._updating = false) :
    updateWith p hd true ev req (.promise none)
      = ({ ev with _waitForUpdate := true }, { req with _updating := true },
          .promisePending) := by
  unfold updateWith
  simp [hw, hs, hu]

/-- Past the guards, `updateWith` with a non-thenable non-object argument
sets both flags and falls through to a bare return. -/
theorem updateWith_other_eq (p : Platform) (hd : Option String)
    (ev : PaymentRequestUpdateEvent) (req : PaymentRequest)
    (hw : ev._waitForUpdate = false) (hs : req._state = .interactive)
    (hu : req._updating = false) :
    updateWith p hd true ev req .other
      = ({ ev with _waitForUpdate := true }, { req with _updating := true },
          .returnedUndefined) := by
  unfold updateWith
  simp [hw, hs, hu]

/-- C3: the `updateWith` guards — `TypeError` when the event's target is
not a `PaymentRequest`; `InvalidStateError` when the event is already
waiting, when the target is not `interactive`, or when the target is
already updating; past the guards both flags are set before the supplied
value is consumed (observable with a still-pending thenable), and any
second `updateWith` on the same request then throws
`InvalidStateError`. -/
theorem C3_updateWith_guards (p : Platform) (hd hd2 : Option String)
    (ev : PaymentRequestUpdateEvent) (req : PaymentRequest)
    (arg : UpdateWithArg) :
    updateWith p hd false ev req arg = (ev, req, .threw .typeError)
    ∧ (ev._waitForUpdate = true →
        updateWith p hd true ev req arg = (ev, req, .threw .invalidStateError))
    ∧ (ev._waitForUpdate = false → req._state ≠ .interactive →
        updateWith p hd true ev req arg = (ev, req, .threw .invalidStateError))
    ∧ (ev._waitForUpdate = false → req._state = .interactive →
        req._updating = true →
        updateWith p hd true ev req arg = (ev, req, .threw .invalidStateError))
    ∧ (ev._waitForUpdate = false → req._state = .interactive →
        req._updating = false →
        (updateWith p hd true ev req (.promise none)).1._waitForUpdate = true
        ∧ (updateWith p hd true ev req (.promise none)).2.1._updating = true
        ∧ (updateWith p hd true ev req (.promise none)).2.2 = .promisePending
        ∧ ∀ ev2 arg2,
            (updateWith p hd2 true ev2
                ((updateWith p hd true ev req (.promise none)).2.1) arg2).2.2
              = .threw .invalidStateError) := by
  refine ⟨?_, ?_, ?_, ?_, ?_⟩
  · unfold updateWith
    simp
  · intro hw
    unfold updateWith
    simp [hw]
  · intro hw hs
    unfold updateWith
    simp [hw, hs]
  · intro hw hs hu
    unfold updateWith
    simp [hw, hs, hu]
  · intro hw hs hu
    rw [updateWith_pending_eq p hd ev req hw hs hu]
    refine ⟨rfl, rfl, rfl, ?_⟩
    intro ev2 arg2
    exact (updateWith_of_updating p hd2 true ev2
      { req with _updating := true } arg2 rfl).2 rfl

/-- Witness for C3 at the concrete interactive request: a first
`updateWith` with a pending thenable sets both flags, and a second call
with an immediate object throws `InvalidStateError`. -/
theorem C3_updateWith_guards_witness :
    (updateWith .ios none true freshAddressChangeEvent iosInteractive
        (.promise none)).1._waitForUpdate = true
    ∧ (updateWith .ios none true freshAddressChangeEvent iosInteractive
        (.promise none)).2.1._updating = true
    ∧ (updateWith .ios none true freshAddressChangeEvent iosInteractive
        (.promise none)).2.2 = .promisePending
    ∧ (updateWith .ios none true freshAddressChangeEvent
          ((updateWith .ios none true freshAddressChangeEvent iosInteractive
              (.promise none)).2.1) (.obj sampleDetails)).2.2
        = .threw .invalidStateError := by
  have h := (C3_updateWith_guards .ios none none freshAddressChangeEvent
    iosInteractive (.obj sampleDetails)).2.2.2.2 (by decide) (by decide)
    (by decide)
  exact ⟨h.1, h.2.1, h.2.2.1, h.2.2.2 freshAddressChangeEvent
    (.obj sampleDetails)⟩

/-- Past the guards, `updateWith` with a `null` or `undefined` argument
sets both flags and then crashes in `isPromise` with a native
`TypeError`. -/
theorem updateWith_nullish_eq (p : Platform) (hd : Option String)
    (ev : PaymentRequestUpdateEvent) (req : PaymentRequest)
    (hw : ev._waitForUpdate = false) (hs : req._state = .interactive)
    (hu : req._updating = false) :
    updateWith p hd true ev req .nullish
      = ({ ev with _waitForUpdate := true }, { req with _updating := true },
          .threw .runtimeTypeError) := by
  unfold updateWith
  simp [hw, hs, hu]

/-- C10 counterexample: `undefined` is neither a thenable nor an object,
yet on the concrete interactive request `updateWith(undefined)` does not
return undefined — `isPromise` reads `value.then` off `undefined` and
raises a native `TypeError` after both flags have been set. -/
theorem C10_counterexample :
    iosInteractive._state = .interactive
    ∧ iosInteractive._updating = false
    ∧ freshAddressChangeEvent._waitForUpdate = false
    ∧ (updateWith .ios none true freshAddressChangeEvent iosInteractive
        .nullish).2.2 = .threw .runtimeTypeError
    ∧ (updateWith .ios none true freshAddressChangeEvent iosInteractive
        .nullish).2.2 ≠ .returnedUndefined
    ∧ (updateWith .ios none true freshAddressChangeEvent iosInteractive
        .nullish).1._waitForUpdate = true
    ∧ (updateWith .ios none true freshAddressChangeEvent iosInteractive
        .nullish).2.1._updating = true := by
  refine ⟨by decide, by decide, by decide, by decide, by decide, by decide,
    by decide⟩

/-- C10 amended: an `updateWith` argument that is neither a thenable nor
an object passes the guards and sets the event's `waitForUpdate` flag and
the request's `updating` flag; a non-nullish primitive (a string, a
number, ...) then falls through to a bare `undefined` return without
raising an error and without touching the details-update pipeline, while
`null` or `undefined` crashes `isPromise` with a native `TypeError` — in
either case the flags are never reset, so every later `updateWith` on
that request — after any trace of further operations — throws
`InvalidStateError`. -/
theorem C10_updateWith_nonobject (p : Platform) (hd : Option String)
    (ev : PaymentRequestUpdateEvent) (req : PaymentRequest)
    (hw : ev._waitForUpdate = false) (hs : req._state = .interactive)
    (hu : req._updating = false) :
    updateWith p hd true ev req .other
      = ({ ev with _waitForUpdate := true }, { req with _updating := true },
          .returnedUndefined)
    ∧ updateWith p hd true ev req .nullish
      = ({ ev with _waitForUpdate := true }, { req with _updating := true },
          .threw .runtimeTypeError)
    ∧ ∀ ops ev2 arg2 hd2,
        (updateWith p hd2 true ev2
            (runOps p { req with _updating := true } ops) arg2).2.2
          = .threw .invalidStateError := by
  refine ⟨updateWith_other_eq p hd ev req hw hs hu,
    updateWith_nullish_eq p hd ev req hw hs hu, ?_⟩
  intro ops ev2 arg2 hd2
  have habs : (runOps p { req with _updating := true } ops)._updating = true :=
    runOps_updating_absorb p ops _ rfl
  exact (updateWith_of_updating p hd2 true ev2 _ arg2 habs).2 rfl

/-- Witness for C10 amended at the concrete interactive request: the call
with a non-object argument returns undefined with both flags set, the
call with `undefined` throws the native `TypeError`, and a later
`updateWith` — here after a further user-accept operation — throws
`InvalidStateError`. -/
theorem C10_updateWith_nonobject_witness :
    updateWith .ios none true freshAddressChangeEvent iosInteractive .other
      = ({ freshAddressChangeEvent with _waitForUpdate := true },
          { iosInteractive with _updating := true }, .returnedUndefined)
    ∧ updateWith .ios none true freshAddressChangeEvent iosInteractive
        .nullish
      = ({ freshAddressChangeEvent with _waitForUpdate := true },
          { iosInteractive with _updating := true },
          .threw .runtimeTypeError)
    ∧ (updateWith .ios none true freshAddressChangeEvent
          (runOps .ios { iosInteractive with _updating := true }
            [.userAccept sampleAcceptDetails]) (.obj sampleDetails)).2.2
        = .threw .invalidStateError := by
  have h := C10_updateWith_nonobject .ios none freshAddressChangeEvent
    iosInteractive (by decide) (by decide) (by decide)
  exact ⟨h.1, h.2.1, h.2.2 [.userAccept sampleAcceptDetails]
    freshAddressChangeEvent (.obj sampleDetails) none⟩

/-- A validation failure makes `_handleDetailsChange` throw the
update-time validation error synchronously, before any mutation. -/
theorem handleDetailsChange_invalid (p : Platform) (hd : Option String)
    (ev : PaymentRequestUpdateEvent) (req : PaymentRequest)
    (value : PaymentDetailsInit)
    (h : (validateTotalOk value.total
        && validateDisplayItemsOk value.displayItems
        && validateShippingOptionsOk value.shippingOptions) = false) :
    handleDetailsChange p hd ev req value = .error .domException := by
  unfold handleDetailsChange
  cases ha : validateTotalOk value.total
  · simp [ha]
  · cases hb : validateDisplayItemsOk value.displayItems
    · simp [ha, hb]
    · cases hc : validateShippingOptionsOk value.shippingOptions
      · simp [ha, hb, hc]
      · rw [ha, hb, hc] at h
        exact absurd h (by simp)

/-- When the supplied details validate but the adapter's detail-update
call fails, `_handleDetailsChange` has already replaced the target's
details, resets both flags and rejects with `AbortError`. -/
theorem handleDetailsChange_adapter_fail (p : Platform) (hd : Option String)
    (ev : PaymentRequestUpdateEvent) (req : PaymentRequest)
    (value : PaymentDetailsInit) (err : String)
    (hv : (validateTotalOk value.total
        && validateDisplayItemsOk value.displayItems
        && validateShippingOptionsOk value.shippingOptions) = true)
    (he : NativePayments.handleDetailsUpdate p hd = .error err) :
    handleDetailsChange p hd ev req value
      = .ok ({ ev with _waitForUpdate := false },
          { req with _details := value, _updating := false },
          .error .abortError) := by
  obtain ⟨⟨h1, h2⟩, h3⟩ : (validateTotalOk value.total = true
      ∧ validateDisplayItemsOk value.displayItems = true)
      ∧ validateShippingOptionsOk value.shippingOptions = true := by
    constructor
    · constructor
      · exact Bool.and_elim_left (Bool.and_elim_left hv)
      · exact Bool.and_elim_right (Bool.and_elim_left hv)
    · exact Bool.and_elim_right hv
  unfold handleDetailsChange resetEvent
  simp [h1, h2, h3, he]

/-- C2 counterexample: a negotiation started on the concrete interactive
request with an input promise that rejects — the negotiation fails with
the promise's own reason, not `AbortError`, and both flags stay `true`
(the details, however, are untouched). -/
theorem C2_counterexample :
    iosInteractive._state = .interactive
    ∧ iosInteractive._updating = false
    ∧ freshAddressChangeEvent._waitForUpdate = false
    ∧ (updateWith .ios none true freshAddressChangeEvent iosInteractive
        (.promise (some (.error (.nativeError "network down"))))).2.2
      = .promiseSettled (.error (.nativeError "network down"))
    ∧ (updateWith .ios none true freshAddressChangeEvent iosInteractive
        (.promise (some (.error (.nativeError "network down"))))).1._waitForUpdate
      = true
    ∧ (updateWith .ios none true freshAddressChangeEvent iosInteractive
        (.promise (some (.error (.nativeError "network down"))))).2.1._updating
      = true := by
  refine ⟨by decide, by decide, by decide, by decide, by decide, by decide⟩

/-- C2 amended: in a negotiation started by `updateWith` on an
interactive, non-updating request, only an adapter detail-update failure
resets both flags and fails with `AbortError` — and by that point the
supplied details have already replaced the previous ones; a validation
failure throws the validation error and a rejected input promise
propagates its own reason, in both cases leaving `waitForUpdate` and
`updating` set to `true` with the previous details still in effect. -/
theorem C2_amended_rejection_paths (p : Platform) (hd : Option String)
    (ev : PaymentRequestUpdateEvent) (req : PaymentRequest)
    (value : PaymentDetailsInit) (e : PRError) (err : String)
    (hw : ev._waitForUpdate = false) (hs : req._state = .interactive)
    (hu : req._updating = false) :
    ((updateWith p hd true ev req (.promise (some (.error e)))).2.2
        = .promiseSettled (.error e)
      ∧ (updateWith p hd true ev req
          (.promise (some (.error e)))).1._waitForUpdate = true
      ∧ (updateWith p hd true ev req
          (.promise (some (.error e)))).2.1._updating = true
      ∧ (updateWith p hd true ev req
          (.promise (some (.error e)))).2.1._details = req._details)
    ∧ ((validateTotalOk value.total
          && validateDisplayItemsOk value.displayItems
          && validateShippingOptionsOk value.shippingOptions) = false →
        (updateWith p hd true ev req (.obj value)).2.2 = .threw .domException
        ∧ (updateWith p hd true ev req (.obj value)).1._waitForUpdate = true
        ∧ (updateWith p hd true ev req (.obj value)).2.1._updating = true
        ∧ (updateWith p hd true ev req (.obj value)).2.1._details
            = req._details)
    ∧ ((validateTotalOk value.total
          && validateDisplayItemsOk value.displayItems
          && validateShippingOptionsOk value.shippingOptions) = true →
        NativePayments.handleDetailsUpdate p hd = .error err →
        (updateWith p hd true ev req (.obj value)).2.2
            = .promiseSettled (.error .abortError)
        ∧ (updateWith p hd true ev req (.obj value)).1._waitForUpdate = false
        ∧ (updateWith p hd true ev req (.obj value)).2.1._updating = false
        ∧ (updateWith p hd true ev req (.obj value)).2.1._details = value) := by
  refine ⟨?_, ?_, ?_⟩
  · unfold updateWith
    simp [hw, hs, hu]
  · intro hv
    unfold updateWith
    simp [hw, hs, hu,
      fun a b => handleDetailsChange_invalid p hd a b value hv]
  · intro hv he
    unfold updateWith
    simp [hw, hs, hu,
      fun a b => handleDetailsChange_adapter_fail p hd a b value err hv he]

/-- Witness for C2 amended at the concrete interactive request with valid
details and a failing adapter: the negotiation fails with `AbortError`,
both flags reset, and the supplied details are already in place. -/
theorem C2_amended_rejection_paths_witness :
    (updateWith .ios (some "boom") true freshAddressChangeEvent
        iosInteractive (.obj sampleDetails)).2.2
      = .promiseSettled (.error .abortError)
    ∧ (updateWith .ios (some "boom") true freshAddressChangeEvent
        iosInteractive (.obj sampleDetails)).1._waitForUpdate = false
    ∧ (updateWith .ios (some "boom") true freshAddressChangeEvent
        iosInteractive (.obj sampleDetails)).2.1._updating = false
    ∧ (updateWith .ios (some "boom") true freshAddressChangeEvent
        iosInteractive (.obj sampleDetails)).2.1._details = sampleDetails :=
  (C2_amended_rejection_paths .ios (some "boom") freshAddressChangeEvent
    iosInteractive sampleDetails .abortError "boom" (by decide) (by decide)
    (by decide)).2.2 (by decide) (by decide)

/-- The resolver invocation never touches the shipping address. -/
theorem resolveAccept_shippingAddress (r : PaymentRequest)
    (resp : PaymentResponse) :
    (r.resolveAccept resp).shippingAddress = r.shippingAddress := by
  unfold PaymentRequest.resolveAccept
  split
  · split <;> rfl
  · rfl

/-- The resolver invocation on an outstanding promise resolves it with
the supplied response. -/
theorem resolveAccept_pending (r : PaymentRequest) (resp : PaymentResponse)
    (hpair : r.hasResolverPair = true)
    (hpend : r._acceptPromise = some .pending) :
    (r.resolveAccept resp)._acceptPromise = some (.resolved resp) := by
  unfold PaymentRequest.resolveAccept
  simp [hpair, hpend]

/-- On iOS, `_getPlatformDetails` succeeds whenever the credential blob
decodes or the transaction is simulated. -/
theorem getPlatformDetails_ios_ok (d : UserAcceptDetails)
    (hdata : d.paymentData.isSome = true
      ∨ d.transactionIdentifier = "Simulated Identifier") :
    ∃ pd, PaymentRequest.getPlatformDetails .ios d = .ok pd := by
  by_cases hsim : d.transactionIdentifier = "Simulated Identifier"
  · have hh : PaymentRequest.getPlatformDetails .ios d
        = .ok { paymentData := none
                billingContact := d.billingContact
                shippingContact := d.shippingContact
                paymentToken := d.paymentToken
                transactionIdentifier := d.transactionIdentifier
                paymentMethod := d.paymentMethod } := by
      unfold PaymentRequest.getPlatformDetails
      simp [hsim]
    exact ⟨_, hh⟩
  · rcases hdata with h | h
    · obtain ⟨pd0, h0⟩ := Option.isSome_iff_exists.mp h
      have hh : PaymentRequest.getPlatformDetails .ios d
          = .ok { paymentData := some pd0
                  billingContact := d.billingContact
                  shippingContact := d.shippingContact
                  paymentToken := d.paymentToken
                  transactionIdentifier := d.transactionIdentifier
                  paymentMethod := d.paymentMethod } := by
        unfold PaymentRequest.getPlatformDetails
        simp [hsim, h0]
      exact ⟨_, hh⟩
    · exact absurd h hsim

/-- C8 counterexample: on the Android request reached by `show()`, with
shipping requested and an address-carrying accept payload, the accept
handler throws `Not implemented` (from `_getPlatformDetails`) before
constructing a response, so the outstanding accept promise never
resolves. -/
theorem C8_counterexample :
    PaymentRequest.construct .android "uuid-1" sampleMethodData sampleDetails
        sampleOptions = .ok androidCreated
    ∧ androidInteractive._acceptPromise = some .pending
    ∧ androidInteractive._options.requestShipping = true
    ∧ sampleAcceptDetails.shippingAddress = some sampleAddress
    ∧ (androidInteractive.handleUserAccept .android sampleAcceptDetails).2
        = some .notImplemented
    ∧ (androidInteractive.handleUserAccept .android
          sampleAcceptDetails).1._acceptPromise = some .pending := by
  refine ⟨by decide, by decide, by decide, by decide, by decide, by decide⟩

/-- C8 amended: on iOS (the platform whose accept path is implemented),
when the payload's credential blob decodes or the transaction is
simulated, handling the user-accept signal on an outstanding request
throws nothing, leaves the state and the shipping address unchanged
(the payload's address is ignored), and resolves the accept promise with
a response whose `shippingAddress` is the request's shipping address if
`options.requestShipping` is set and null otherwise. -/
theorem C8_amended_ios_accept (r : PaymentRequest) (d : UserAcceptDetails)
    (hpend : r._acceptPromise = some .pending)
    (hpair : r.hasResolverPair = true)
    (hdata : d.paymentData.isSome = true
      ∨ d.transactionIdentifier = "Simulated Identifier") :
    (r.handleUserAccept .ios d).2 = none
    ∧ (r.handleUserAccept .ios d).1._state = r._state
    ∧ (r.handleUserAccept .ios d).1.shippingAddress = r.shippingAddress
    ∧ ∃ resp : PaymentResponse,
        (r.handleUserAccept .ios d).1._acceptPromise
          = some (.resolved resp)
        ∧ resp.shippingAddress
            = (if r._options.requestShipping then r.shippingAddress
                else none) := by
  obtain ⟨pd, hpd⟩ := getPlatformDetails_ios_ok d hdata
  have heq : r.handleUserAccept .ios d
      = (r.resolveAccept
          { requestId := r.id
            methodName := "apple-pay"
            shippingAddress :=
              if r._options.requestShipping then r.shippingAddress else none
            details := pd
            shippingOption := r.shippingOption }, none) := by
    unfold PaymentRequest.handleUserAccept
    simp [hpd]
  rw [heq]
  exact ⟨rfl, (resolveAccept_fields _ _).1, resolveAccept_shippingAddress _ _,
    ⟨_, resolveAccept_pending _ _ hpair hpend, rfl⟩⟩

/-- Witness for C8 amended at the interactive iOS request and the sample
accept payload: the promise resolves with a response carrying the
request's (null) shipping address since shipping was requested. -/
theorem C8_amended_ios_accept_witness :
    (iosInteractive.handleUserAccept .ios sampleAcceptDetails).2 = none
    ∧ (iosInteractive.handleUserAccept .ios sampleAcceptDetails).1._state
        = iosInteractive._state
    ∧ (iosInteractive.handleUserAccept .ios
          sampleAcceptDetails).1.shippingAddress
        = iosInteractive.shippingAddress
    ∧ ∃ resp : PaymentResponse,
        (iosInteractive.handleUserAccept .ios
            sampleAcceptDetails).1._acceptPromise
          = some (.resolved resp)
        ∧ resp.shippingAddress
            = (if iosInteractive._options.requestShipping then
                iosInteractive.shippingAddress
              else none) :=
  C8_amended_ios_accept iosInteractive sampleAcceptDetails (by decide)
    (by decide) (.inl (by decide))
